import Mathlib

/-
Verification of hw4/gan.py: a minimal GAN training exercise.

The development shallowly embeds the file's own logic:
  * `create_layer` and the layer stacks of `Discriminator` / `Generator`
    are embedded as lists of `Layer` values, with `layerShape` giving the
    shape semantics of each library layer (Conv2d, ConvTranspose2d,
    BatchNorm2d, ReLU, LeakyReLU, Linear, Tensor.view).
  * `save_checkpoint` is embedded over Python list semantics (`pyIndex`
    models Python indexing, where a negative index wraps once from the
    end and anything out of range raises IndexError).
  * the loss functions are embedded with the library's
    `BCEWithLogitsLoss` kept abstract (it is an external collaborator)
    and the in-place `uniform_` fill made explicit: each element is
    `lo + r i * (hi - lo)` for a caller-supplied random stream `r`.
  * `train_batch` is embedded as explicit state passing over the
    generator/discriminator parameters, their gradient accumulators and
    the random state, with the external collaborators (forward passes,
    loss callables, the two optimizers bound each to its own network's
    parameters, and autodiff's gradient contributions) abstracted into a
    `GanEnv`.

Python scalars are modelled by `ℚ`, tensor shapes by `List Nat`.
-/

/-- A Python exception relevant to this file. -/
inductive PyError where
  | assertionError
  | indexError
deriving DecidableEq

/-- Python list indexing `l[i]`: a negative index wraps once from the end,
anything still out of range raises IndexError (modelled as `none`). -/
def pyIndex {α : Type} (l : List α) (i : Int) : Option α :=
  let j : Int := if i < 0 then (l.length : Int) + i else i
  if 0 ≤ j then l[j.toNat]? else none

/-- Outcome of `save_checkpoint`: its boolean return value and the
`torch.save` call it performed, if any (path and serialized model). -/
structure SaveResult (M : Type) where
  saved : Bool
  written : Option (String × M)
deriving DecidableEq

/-- Embeds `save_checkpoint(gen_model, dsc_losses, gen_losses, checkpoint_file)`
(gan.py lines 221-245).  `M` is the (opaque) type of the generator model;
`torch.save(gen_model, checkpoint_file)` is recorded in `written`. -/
def save_checkpoint {M : Type} (gen_model : M) (dsc_losses gen_losses : List ℚ)
    (checkpoint_file : String) : Except PyError (SaveResult M) :=
  -- saved = False; checkpoint_file gains the fixed ".pt" extension.
  -- n = len(gen_losses) - 1
  -- improved = gen_losses[n] <= gen_losses[n-1]
  -- (Python evaluates gen_losses[n] first; an invalid index raises IndexError)
  match pyIndex gen_losses ((gen_losses.length : Int) - 1),
        pyIndex gen_losses ((gen_losses.length : Int) - 1 - 1) with
  | some lastLoss, some prevLoss =>
      -- if improved: torch.save(gen_model, checkpoint_file); saved = True
      if lastLoss ≤ prevLoss then
        Except.ok ⟨true, some (checkpoint_file ++ ".pt", gen_model)⟩
      else
        Except.ok ⟨false, none⟩
  | _, _ => Except.error PyError.indexError
  -- the dsc_losses parameter is never read (see save_checkpoint_ignores_dsc_losses)

/-- The constructor passed to `create_layer`: `nn.Conv2d` or
`nn.ConvTranspose2d`. -/
inductive ConvKind where
  | conv2d
  | convTranspose2d
deriving DecidableEq

/-- One element appended to an `nn.Sequential`-bound module list. -/
inductive Layer where
  | conv (kind : ConvKind) (in_c out_c kernel_size padding stride : Nat) (bias : Bool)
  | batchNorm2d (num_features : Nat)
  | relu
  | leakyReLU (negative_slope : ℚ)
deriving DecidableEq

/-- Embeds `create_layer(m, conv, in_c, out_c, relu=True, batchnorm=True,
not_leaky=False, relu_param=0.3, kernel_size=4, padding=1, stride=2,
bias=False)` (gan.py lines 12-31).  Python mutates `m` by appending; the
embedding returns the extended list.  All defaulted arguments are passed
explicitly. -/
def create_layer (m : List Layer) (conv : ConvKind) (in_c out_c : Nat)
    (relu batchnorm not_leaky : Bool) (relu_param : ℚ)
    (kernel_size padding stride : Nat) (bias : Bool) : List Layer :=
  -- m.append(conv(in_c, out_c, kernel_size, padding, stride, bias))
  let m := m ++ [Layer.conv conv in_c out_c kernel_size padding stride bias]
  -- if batchnorm: m.append(nn.BatchNorm2d(out_c))
  let m := if batchnorm then m ++ [Layer.batchNorm2d out_c] else m
  -- if relu: m.append(nn.ReLU()) if not_leaky else m.append(nn.LeakyReLU(relu_param))
  let m := if relu then
      (if not_leaky then m ++ [Layer.relu] else m ++ [Layer.leakyReLU relu_param])
    else m
  m

/-! ## Shape semantics of the layer stacks

A tensor shape is its list of dimensions.  `layerShape` is the shape
semantics of the library layers this file instantiates, at the layer
configurations the file uses (dilation 1, output_padding 0, groups 1):
  * `Conv2d`: spatial dim `h ↦ (h + 2*padding - kernel_size) / stride + 1`
    (integer division), defined when the kernel fits;
  * `ConvTranspose2d`: `h ↦ (h - 1) * stride + kernel_size - 2*padding`,
    defined when the result is at least 1;
  * `BatchNorm2d`: identity on (N, C, H, W) inputs with the declared C;
  * `ReLU` / `LeakyReLU`: identity on any shape;
  * `Linear(inF, outF)`: `[n, inF] ↦ [n, outF]` (the file only applies it
    to 2-d inputs, right after a flattening view);
  * `Tensor.view(n, -1)` and `view(n, -1, 1, 1)`: defined when `n` is
    nonzero and divides the element count, inferring the `-1` dimension.
-/

/-- A tensor shape: the list of its dimensions. -/
abbrev Shape := List Nat

/-- Total number of elements of a shape. -/
def numel (s : Shape) : Nat := s.foldl (fun a d => a * d) 1

/-- Output spatial dimension of `nn.Conv2d` (dilation 1). -/
def convOutDim (h kernel_size padding stride : Nat) : Option Nat :=
  if 1 ≤ stride ∧ kernel_size ≤ h + 2 * padding then
    some ((h + 2 * padding - kernel_size) / stride + 1)
  else none

/-- Output spatial dimension of `nn.ConvTranspose2d` (dilation 1,
output_padding 0). -/
def convTransposeOutDim (h kernel_size padding stride : Nat) : Option Nat :=
  if 1 ≤ h ∧ 2 * padding + 1 ≤ (h - 1) * stride + kernel_size then
    some ((h - 1) * stride + kernel_size - 2 * padding)
  else none

/-- Shape semantics of a single layer. -/
def layerShape : Layer → Shape → Option Shape
  | Layer.conv ConvKind.conv2d in_c out_c k p s _, [n, c, h, w] =>
      if c = in_c then do
        let hOut ← convOutDim h k p s
        let wOut ← convOutDim w k p s
        some [n, out_c, hOut, wOut]
      else none
  | Layer.conv ConvKind.convTranspose2d in_c out_c k p s _, [n, c, h, w] =>
      if c = in_c then do
        let hOut ← convTransposeOutDim h k p s
        let wOut ← convTransposeOutDim w k p s
        some [n, out_c, hOut, wOut]
      else none
  | Layer.batchNorm2d ch, [n, c, h, w] =>
      if c = ch then some [n, c, h, w] else none
  | Layer.relu, s => some s
  | Layer.leakyReLU _, s => some s
  | _, _ => none

/-- `nn.Sequential`: apply the layers in order. -/
def seqShape : List Layer → Shape → Option Shape
  | [], x => some x
  | l :: ls, x => (layerShape l x).bind (seqShape ls)

/-- `t.view(n, -1)`. -/
def viewFlatten (t : Shape) (n : Nat) : Option Shape :=
  if n ≠ 0 ∧ n ∣ numel t then some [n, numel t / n] else none

/-- `z.view(n, -1, 1, 1)`. -/
def viewBatch4 (z : Shape) (n : Nat) : Option Shape :=
  if n ≠ 0 ∧ n ∣ numel z then some [n, numel z / n, 1, 1] else none

/-- `nn.Linear(in_features, out_features)` on the 2-d inputs the file
feeds it. -/
def linShape (in_features out_features : Nat) : Shape → Option Shape
  | [n, f] => if f = in_features then some [n, out_features] else none
  | _ => none

/-- The module list built in `Discriminator.__init__` (gan.py lines 48-52):
four stride-2 conv blocks with default `create_layer` options. -/
def discModules (in_c : Nat) : List Layer :=
  let m : List Layer := []
  let m := create_layer m ConvKind.conv2d in_c 128 true true false (3/10) 4 1 2 false
  let m := create_layer m ConvKind.conv2d 128 256 true true false (3/10) 4 1 2 false
  let m := create_layer m ConvKind.conv2d 256 512 true true false (3/10) 4 1 2 false
  let m := create_layer m ConvKind.conv2d 512 1024 true true false (3/10) 4 1 2 false
  m

/-- Embeds `Discriminator.forward` (gan.py lines 58-71) at the shape level,
for a discriminator constructed with `in_size = (C, H, W)`:
`t = self.seq(x); y = self.lin(t.view(x.shape[0], -1))` where
`self.lin = nn.Linear(in_size[1] * in_size[2] * 4, 1)` (line 53). -/
def Discriminator.forward (in_size : Nat × Nat × Nat) (x : Shape) : Option Shape := do
  let t ← seqShape (discModules in_size.1) x
  let n ← x.head?
  let v ← viewFlatten t n
  linShape (in_size.2.1 * in_size.2.2 * 4) 1 v

/-- The module list built in `Generator.__init__` (gan.py lines 89-95):
a first transposed-conv block with kernel `featuremap_size` and padding 0,
three doubling transposed-conv blocks, and a final transposed-conv with no
batchnorm and no activation. -/
def genModules (z_dim featuremap_size out_channels : Nat) : List Layer :=
  let m : List Layer := []
  let m := create_layer m ConvKind.convTranspose2d z_dim 1024 true true true (3/10) featuremap_size 0 2 false
  let m := create_layer m ConvKind.convTranspose2d 1024 512 true true true (3/10) 4 1 2 false
  let m := create_layer m ConvKind.convTranspose2d 512 256 true true true (3/10) 4 1 2 false
  let m := create_layer m ConvKind.convTranspose2d 256 128 true true true (3/10) 4 1 2 false
  let m := create_layer m ConvKind.convTranspose2d 128 out_channels false false false (3/10) 4 1 2 false
  m

/-- Embeds `Generator.forward` (gan.py lines 116-127) at the shape level:
`x = self.generated_images(z.view(z.shape[0], -1, 1, 1))`. -/
def Generator.forward (z_dim featuremap_size out_channels : Nat) (z : Shape) : Option Shape := do
  let n ← z.head?
  let v ← viewBatch4 z n
  seqShape (genModules z_dim featuremap_size out_channels) v

/-! ## Loss functions

Score tensors of shape (N,) are lists of rationals.  The library's
`nn.BCEWithLogitsLoss()` callable is an external collaborator and is kept
abstract as a parameter `bce`; the in-place `uniform_(lo, hi)` fill is
made explicit: element `i` is `lo + r i * (hi - lo)` for a caller-supplied
stream `r` of unit randoms. -/

/-- `torch.ones(shape).uniform_(lo, hi)` for a 1-d shape of length `len`:
each element is an independent draw from the interval `[lo, hi]`, realised
from the random stream `r`. -/
def uniformFill (len : Nat) (lo hi : ℚ) (r : Nat → ℚ) : List ℚ :=
  (List.range len).map (fun i => lo + r i * (hi - lo))

/-- Embeds `discriminator_loss_fn(y_data, y_generated, data_label=0,
label_noise=0.0)` (gan.py lines 130-157).  `r1`, `r2` are the random
streams consumed by the two `uniform_` calls. -/
def discriminator_loss_fn (bce : List ℚ → List ℚ → ℚ) (y_data y_generated : List ℚ)
    (data_label label_noise : ℚ) (r1 r2 : Nat → ℚ) : Except PyError ℚ :=
  -- assert data_label == 1 or data_label == 0
  if data_label = 1 ∨ data_label = 0 then
    -- p_noise_range = data_label - label_noise / 2
    -- n_noise_Range = data_label + label_noise / 2
    -- n   = torch.ones(y_data.shape).uniform_(p_noise_range, n_noise_Range)
    -- gen = torch.ones(y_generated.shape).uniform_(1 - n_noise_Range, 1 - p_noise_range)
    -- return BCEWithLogitsLoss()(y_data, n) + BCEWithLogitsLoss()(y_generated, gen)
    Except.ok
      (bce y_data (uniformFill y_data.length (data_label - label_noise / 2)
          (data_label + label_noise / 2) r1)
        + bce y_generated (uniformFill y_generated.length
            (1 - (data_label + label_noise / 2)) (1 - (data_label - label_noise / 2)) r2))
  else Except.error PyError.assertionError

/-- Embeds `generator_loss_fn(y_generated, data_label=0)` (gan.py lines
160-177): BCEWithLogitsLoss of the scores against
`torch.ones_like(y_generated) * data_label`. -/
def generator_loss_fn (bce : List ℚ → List ℚ → ℚ) (y_generated : List ℚ)
    (data_label : ℚ) : Except PyError ℚ :=
  -- assert data_label == 1 or data_label == 0
  if data_label = 1 ∨ data_label = 0 then
    Except.ok (bce y_generated
      ((List.replicate y_generated.length 1).map (fun v => v * data_label)))
  else Except.error PyError.assertionError

/-! ## The training step

`train_batch` is straight-line code over external collaborators: the two
networks (used through forward passes and parameter iteration only), the
two loss callables, the two optimizers (each bound to its own network's
parameters, exposing zero_grad and step), and autodiff (`backward`
accumulates each loss's gradient into the `.grad` of the parameters inside
that loss's computation graph).  The embedding passes the mutated state —
both parameter sets, both gradient accumulators, and the random state
consumed by `Generator.sample` — explicitly, and abstracts the
collaborators into a `GanEnv`:
  * `sample p n g r` is `Generator.sample(n, with_grad=g)` with generator
    parameters `p` and random state `r`, returning the batch and the
    advanced random state;
  * `detach` is `Tensor.detach`: same values, severed from the graph, so
    a backward pass through a loss built on a detached batch contributes
    no gradient to the generator's parameters;
  * `dscLossGrad` is the gradient of
    `dsc_loss_fn(dsc_model(x), dsc_model(detached))` in the
    discriminator's parameters — the only parameters in that graph;
  * `genLossGradGen` / `genLossGradDsc` are the gradients of
    `gen_loss_fn(dsc_model(fresh_sample))` in the generator's and the
    discriminator's parameters (both networks are in that graph);
  * `dscStep` / `genStep` apply one optimizer update from the current
    gradient accumulator, each to its own network's parameters. -/

/-- A scalar (0-dimensional) tensor holding a loss value. -/
structure Tensor0 where
  val : ℚ

/-- `Tensor.item()`: the plain number a scalar tensor holds. -/
def Tensor0.item (t : Tensor0) : ℚ := t.val

/-- The external collaborators of `train_batch`; see the section comment.
`P`/`D` are the generator's and discriminator's parameter (and gradient)
spaces, `B` image batches, `S` score tensors, `R` the random state. -/
structure GanEnv (P D B S R : Type) where
  batchSize : B → Nat
  sample : P → Nat → Bool → R → B × R
  detach : B → B
  dscScore : D → B → S
  dsc_loss_fn : S → S → Tensor0
  gen_loss_fn : S → Tensor0
  zeroGenGrad : P
  zeroDscGrad : D
  addGenGrad : P → P → P
  addDscGrad : D → D → D
  dscLossGrad : D → B → B → D
  genLossGradGen : P → D → B → P
  genLossGradDsc : P → D → B → D
  genStep : P → P → P
  dscStep : D → D → D

/-- The state `train_batch` reads and mutates. -/
structure GanState (P D R : Type) where
  genParams : P
  dscParams : D
  genGrad : P
  dscGrad : D
  rng : R

/-- gan.py lines 200-201: `gen_optimizer.zero_grad()` then
`dsc_optimizer.zero_grad()` (they touch disjoint fields). -/
def zero_grad_phase {P D B S R : Type} (env : GanEnv P D B S R)
    (s : GanState P D R) : GanState P D R :=
  { s with genGrad := env.zeroGenGrad, dscGrad := env.zeroDscGrad }

/-- gan.py lines 203-206, the discriminator sub-step:
`gen = gen_model.sample(x_data.shape[0], with_grad=True)`;
`dsc_loss = dsc_loss_fn(dsc_model(x_data), dsc_model(gen.detach()))`;
`dsc_loss.backward()`; `dsc_optimizer.step()`. -/
def dsc_sub_step {P D B S R : Type} (env : GanEnv P D B S R) (x_data : B)
    (s : GanState P D R) : GanState P D R × Tensor0 :=
  let draw := env.sample s.genParams (env.batchSize x_data) true s.rng
  let detached := env.detach draw.1
  let dsc_loss := env.dsc_loss_fn (env.dscScore s.dscParams x_data)
      (env.dscScore s.dscParams detached)
  -- backward: the generated batch was detached, so the gradient reaches
  -- only the discriminator's parameters
  let newDscGrad := env.addDscGrad s.dscGrad
      (env.dscLossGrad s.dscParams x_data detached)
  -- step: the discriminator's optimizer updates only the parameters it
  -- is bound to
  ({ s with rng := draw.2, dscGrad := newDscGrad,
            dscParams := env.dscStep s.dscParams newDscGrad },
   dsc_loss)

/-- gan.py lines 213-215, the generator sub-step:
`gen_loss = gen_loss_fn(dsc_model(gen_model.sample(x_data.shape[0], with_grad=True)))`;
`gen_loss.backward()`; `gen_optimizer.step()`. -/
def gen_sub_step {P D B S R : Type} (env : GanEnv P D B S R) (x_data : B)
    (s : GanState P D R) : GanState P D R × Tensor0 :=
  let draw := env.sample s.genParams (env.batchSize x_data) true s.rng
  let gen_loss := env.gen_loss_fn (env.dscScore s.dscParams draw.1)
  -- backward: gradients flow to the generator's parameters and (left
  -- unused until the next zero_grad) the discriminator's
  let newGenGrad := env.addGenGrad s.genGrad
      (env.genLossGradGen s.genParams s.dscParams draw.1)
  let newDscGrad := env.addDscGrad s.dscGrad
      (env.genLossGradDsc s.genParams s.dscParams draw.1)
  -- gen_optimizer.step()
  ({ s with rng := draw.2, genGrad := newGenGrad, dscGrad := newDscGrad,
            genParams := env.genStep s.genParams newGenGrad },
   gen_loss)

/-- Embeds `train_batch` (gan.py lines 180-218): clear both gradient
accumulators, run the discriminator sub-step, run the generator sub-step,
and return `(dsc_loss.item(), gen_loss.item())`. -/
def train_batch {P D B S R : Type} (env : GanEnv P D B S R) (x_data : B)
    (s : GanState P D R) : GanState P D R × ℚ × ℚ :=
  let s1 := zero_grad_phase env s
  let dscRes := dsc_sub_step env x_data s1
  let genRes := gen_sub_step env x_data dscRes.1
  (genRes.1, dscRes.2.item, genRes.2.item)

/-- The training step as the spec words it, written independently as one
flat sequence for the refinement comparison: 1. clear accumulated
gradients on both optimizers; 2. sample a generated batch of the same size
as the real batch with gradient tracking and detach it; 3. score the real
and detached generated batches, compute the discriminator loss,
backpropagate, step the discriminator optimizer; 4. sample a fresh
generated batch, compute the generator loss, backpropagate, step the
generator optimizer; return the pair (discriminator loss, generator loss)
as plain numbers. -/
def train_batch_spec {P D B S R : Type} (env : GanEnv P D B S R)
    (real_batch : B) (s0 : GanState P D R) : GanState P D R × ℚ × ℚ :=
  let s1 : GanState P D R :=
    { s0 with genGrad := env.zeroGenGrad, dscGrad := env.zeroDscGrad }
  let draw1 := env.sample s1.genParams (env.batchSize real_batch) true s1.rng
  let detached := env.detach draw1.1
  let dsc_loss := env.dsc_loss_fn (env.dscScore s1.dscParams real_batch)
      (env.dscScore s1.dscParams detached)
  let dscG := env.addDscGrad s1.dscGrad
      (env.dscLossGrad s1.dscParams real_batch detached)
  let s2 : GanState P D R :=
    { s1 with rng := draw1.2, dscGrad := dscG,
              dscParams := env.dscStep s1.dscParams dscG }
  let draw2 := env.sample s2.genParams (env.batchSize real_batch) true s2.rng
  let gen_loss := env.gen_loss_fn (env.dscScore s2.dscParams draw2.1)
  let genG := env.addGenGrad s2.genGrad
      (env.genLossGradGen s2.genParams s2.dscParams draw2.1)
  let s3 : GanState P D R :=
    { s2 with rng := draw2.2, genGrad := genG,
              dscGrad := env.addDscGrad s2.dscGrad
                  (env.genLossGradDsc s2.genParams s2.dscParams draw2.1),
              genParams := env.genStep s2.genParams genG }
  (s3, dsc_loss.item, gen_loss.item)

/-- `pyIndex` at a nonnegative index is plain list lookup. -/
theorem pyIndex_of_nonneg {α : Type} (l : List α) (i : Int) (h : 0 ≤ i) :
    pyIndex l i = l[i.toNat]? := by
  have h1 : ¬ i < 0 := by omega
  simp [pyIndex, h1, h]

/-- C9: the result of save_checkpoint (its boolean return value and
whether/what it writes) does not depend on dsc_losses: two calls agreeing on
gen_model, gen_losses and checkpoint_file but differing arbitrarily in
dsc_losses behave identically. -/
theorem save_checkpoint_ignores_dsc_losses {M : Type} (gen_model : M)
    (dsc_losses₁ dsc_losses₂ gen_losses : List ℚ) (checkpoint_file : String) :
    save_checkpoint gen_model dsc_losses₁ gen_losses checkpoint_file
      = save_checkpoint gen_model dsc_losses₂ gen_losses checkpoint_file := rfl

/-- C2 counterexample: calling save_checkpoint with a single-entry loss
history (fewer than 2 entries) does not fault: Python's negative indexing
makes gen_losses[n-1] wrap to the sole entry, the comparison 1 ≤ 1 holds,
and the call completes normally, saves, and returns True. -/
theorem save_checkpoint_single_entry_saves :
    save_checkpoint () [] [(1 : ℚ)] "checkpoint"
      = Except.ok ⟨true, some ("checkpoint.pt", ())⟩ := rfl

/-- C2 amended: with an empty gen_losses history save_checkpoint raises an
index-out-of-range fault; with exactly one entry it completes normally,
compares the sole entry with itself (negative-index wraparound), saves the
generator, and returns True. -/
theorem save_checkpoint_short_history {M : Type} (gen_model : M)
    (dsc_losses : List ℚ) (checkpoint_file : String) (a : ℚ) :
    save_checkpoint gen_model dsc_losses ([] : List ℚ) checkpoint_file
        = Except.error PyError.indexError
    ∧ save_checkpoint gen_model dsc_losses [a] checkpoint_file
        = Except.ok ⟨true, some (checkpoint_file ++ ".pt", gen_model)⟩ := by
  constructor
  · rfl
  · simp [save_checkpoint, pyIndex]

/-- C3: with at least 2 entries in gen_losses, save_checkpoint appends the
fixed extension ".pt" to the given path; if the last entry is at most the
second-to-last it serializes the full generator model to that path and
returns True, otherwise it returns False and writes no file. -/
theorem save_checkpoint_improvement_rule {M : Type} (gen_model : M)
    (dsc_losses gen_losses : List ℚ) (checkpoint_file : String) (a b : ℚ)
    (h2 : 2 ≤ gen_losses.length)
    (ha : gen_losses[gen_losses.length - 1]? = some a)
    (hb : gen_losses[gen_losses.length - 2]? = some b) :
    save_checkpoint gen_model dsc_losses gen_losses checkpoint_file
      = if a ≤ b
        then Except.ok ⟨true, some (checkpoint_file ++ ".pt", gen_model)⟩
        else Except.ok ⟨false, none⟩ := by
  unfold save_checkpoint
  rw [pyIndex_of_nonneg _ _ (by omega), pyIndex_of_nonneg _ _ (by omega)]
  have e1 : ((gen_losses.length : Int) - 1).toNat = gen_losses.length - 1 := by omega
  have e2 : ((gen_losses.length : Int) - 1 - 1).toNat = gen_losses.length - 2 := by omega
  rw [e1, e2, ha, hb]

/-- C3 witness: gen_losses = [2, 1] (improvement) saves and returns True;
gen_losses = [1, 2] (regression) returns False and writes nothing. -/
theorem save_checkpoint_improvement_rule_witness :
    save_checkpoint () [] [(2 : ℚ), 1] "f"
        = Except.ok ⟨true, some ("f.pt", ())⟩
    ∧ save_checkpoint () [] [(1 : ℚ), 2] "f"
        = Except.ok ⟨false, none⟩ := by
  constructor
  · rw [save_checkpoint_improvement_rule () [] [(2 : ℚ), 1] "f" 1 2
      (by norm_num) (by norm_num) (by norm_num)]
    norm_num
    rfl
  · rw [save_checkpoint_improvement_rule () [] [(1 : ℚ), 2] "f" 2 1
      (by norm_num) (by norm_num) (by norm_num)]
    norm_num

/-- C10: create_layer only appends to the passed-in sequence m: the prior
elements remain an unchanged initial segment, and between 1 and 3 new
elements follow — always the convolution layer, a BatchNorm2d exactly when
batchnorm, and an activation (ReLU when not_leaky, else LeakyReLU with
relu_param) exactly when relu, in that order. -/
theorem create_layer_appends_blocks (m : List Layer) (conv : ConvKind)
    (in_c out_c : Nat) (relu batchnorm not_leaky : Bool) (relu_param : ℚ)
    (kernel_size padding stride : Nat) (bias : Bool) :
    ∃ t : List Layer,
      create_layer m conv in_c out_c relu batchnorm not_leaky relu_param
          kernel_size padding stride bias = m ++ t
      ∧ (create_layer m conv in_c out_c relu batchnorm not_leaky relu_param
          kernel_size padding stride bias).take m.length = m
      ∧ t = [Layer.conv conv in_c out_c kernel_size padding stride bias]
          ++ (if batchnorm then [Layer.batchNorm2d out_c] else [])
          ++ (if relu then
                [if not_leaky then Layer.relu else Layer.leakyReLU relu_param]
              else [])
      ∧ 1 ≤ t.length ∧ t.length ≤ 3 := by
  refine ⟨[Layer.conv conv in_c out_c kernel_size padding stride bias]
      ++ (if batchnorm then [Layer.batchNorm2d out_c] else [])
      ++ (if relu then
            [if not_leaky then Layer.relu else Layer.leakyReLU relu_param]
          else []), ?_, ?_, rfl, ?_, ?_⟩ <;>
    cases batchnorm <;> cases relu <;> cases not_leaky <;>
    simp [create_layer]

/-- One `nn.Sequential` step under a known layer result. -/
theorem seqShape_step {l : Layer} {ls : List Layer} {x y : Shape}
    (h : layerShape l x = some y) : seqShape (l :: ls) x = seqShape ls y := by
  simp [seqShape, h]

/-- The first generator block: kernel `k`, padding 0, stride 2 on a 1x1
input gives a kxk feature map. -/
theorem layerShape_convT_first (c cOut k n : Nat) (hk : 1 ≤ k) :
    layerShape (Layer.conv ConvKind.convTranspose2d c cOut k 0 2 false) [n, c, 1, 1]
      = some [n, cOut, k, k] := by
  simp [layerShape, convTransposeOutDim, hk]

/-- A kernel-4, padding-1, stride-2 transposed convolution doubles each
spatial dimension. -/
theorem layerShape_convT_doubles (c cOut n h w : Nat) (hh : 1 ≤ h) (hw : 1 ≤ w) :
    layerShape (Layer.conv ConvKind.convTranspose2d c cOut 4 1 2 false) [n, c, h, w]
      = some [n, cOut, 2 * h, 2 * w] := by
  have gh : 2 * 1 + 1 ≤ (h - 1) * 2 + 4 := by omega
  have gw : 2 * 1 + 1 ≤ (w - 1) * 2 + 4 := by omega
  have eh : (h - 1) * 2 + 4 - 2 * 1 = 2 * h := by omega
  have ew : (w - 1) * 2 + 4 - 2 * 1 = 2 * w := by omega
  simp [layerShape, convTransposeOutDim, hh, hw, gh, gw, eh, ew]

/-- A kernel-4, padding-1, stride-2 convolution halves each even spatial
dimension. -/
theorem layerShape_conv_halves (c cOut n a b : Nat) (ha : 1 ≤ a) (hb : 1 ≤ b) :
    layerShape (Layer.conv ConvKind.conv2d c cOut 4 1 2 false) [n, c, 2 * a, 2 * b]
      = some [n, cOut, a, b] := by
  have gh : 4 ≤ 2 * a + 2 * 1 := by omega
  have gw : 4 ≤ 2 * b + 2 * 1 := by omega
  simp [layerShape, convOutDim, gh, gw]
  omega

/-- BatchNorm2d is shape-preserving on inputs with its channel count. -/
theorem layerShape_bn (ch n h w : Nat) :
    layerShape (Layer.batchNorm2d ch) [n, ch, h, w] = some [n, ch, h, w] := by
  simp [layerShape]

/-- C1 evidence: on the declared input size (3, 64, 64) and a batch of 8,
Discriminator.forward returns shape (8, 1) — one raw score per batch
element, but in a 2-d (N, 1) tensor, not the 1-d (N,) tensor the
docstring and the spec declare: nn.Linear(in_features, 1) maps (N, F) to
(N, 1) and the code never squeezes the final dimension. -/
theorem discriminator_forward_returns_N_1 :
    Discriminator.forward (3, 64, 64) [8, 3, 64, 64] = some [8, 1]
    ∧ ([8, 1] : Shape) ≠ [8] := by
  constructor
  · rfl
  · decide

/-- C8: Generator.forward reshapes a latent batch (N, z_dim) to
(N, z_dim, 1, 1), produces an image batch of shape
(N, out_channels, 16 * featuremap_size, 16 * featuremap_size), and a
Discriminator constructed with the matching in_size accepts that batch (in
particular, with z_dim = 128, featuremap_size = 4, out_channels = 3 the
output shape is (N, 3, 64, 64)). -/
theorem generator_output_matches_discriminator (z_dim f out_c n : Nat)
    (hf : 1 ≤ f) (hn : 1 ≤ n) :
    viewBatch4 [n, z_dim] n = some [n, z_dim, 1, 1]
    ∧ Generator.forward z_dim f out_c [n, z_dim] = some [n, out_c, 16 * f, 16 * f]
    ∧ Discriminator.forward (out_c, 16 * f, 16 * f) [n, out_c, 16 * f, 16 * f]
        = some [n, 1] := by
  have hview : viewBatch4 [n, z_dim] n = some [n, z_dim, 1, 1] := by
    have hne : n ≠ 0 := by omega
    have hnum : numel [n, z_dim] = n * z_dim := by simp [numel, List.foldl]
    have hdvd : n ∣ numel [n, z_dim] := by rw [hnum]; exact ⟨z_dim, rfl⟩
    rw [viewBatch4, if_pos ⟨hne, hdvd⟩, hnum, Nat.mul_div_cancel_left _ (by omega)]
  have hmods : genModules z_dim f out_c =
      [Layer.conv ConvKind.convTranspose2d z_dim 1024 f 0 2 false,
       Layer.batchNorm2d 1024, Layer.relu,
       Layer.conv ConvKind.convTranspose2d 1024 512 4 1 2 false,
       Layer.batchNorm2d 512, Layer.relu,
       Layer.conv ConvKind.convTranspose2d 512 256 4 1 2 false,
       Layer.batchNorm2d 256, Layer.relu,
       Layer.conv ConvKind.convTranspose2d 256 128 4 1 2 false,
       Layer.batchNorm2d 128, Layer.relu,
       Layer.conv ConvKind.convTranspose2d 128 out_c 4 1 2 false] := by
    simp [genModules, create_layer]
  have hgen : Generator.forward z_dim f out_c [n, z_dim]
      = some [n, out_c, 16 * f, 16 * f] := by
    rw [Generator.forward]
    simp only [List.head?, Option.bind_eq_bind', Option.some_bind', hview, hmods]
    rw [seqShape_step (layerShape_convT_first z_dim 1024 f n hf),
        seqShape_step (layerShape_bn 1024 n f f),
        seqShape_step (rfl : layerShape Layer.relu [n, 1024, f, f]
          = some [n, 1024, f, f]),
        seqShape_step (layerShape_convT_doubles 1024 512 n f f hf hf),
        seqShape_step (layerShape_bn 512 n (2*f) (2*f)),
        seqShape_step (rfl : layerShape Layer.relu [n, 512, 2*f, 2*f]
          = some [n, 512, 2*f, 2*f]),
        seqShape_step (layerShape_convT_doubles 512 256 n (2*f) (2*f)
          (by omega) (by omega)),
        seqShape_step (layerShape_bn 256 n (2*(2*f)) (2*(2*f))),
        seqShape_step (rfl : layerShape Layer.relu [n, 256, 2*(2*f), 2*(2*f)]
          = some [n, 256, 2*(2*f), 2*(2*f)]),
        seqShape_step (layerShape_convT_doubles 256 128 n (2*(2*f)) (2*(2*f))
          (by omega) (by omega)),
        seqShape_step (layerShape_bn 128 n (2*(2*(2*f))) (2*(2*(2*f)))),
        seqShape_step (rfl :
          layerShape Layer.relu [n, 128, 2*(2*(2*f)), 2*(2*(2*f))]
            = some [n, 128, 2*(2*(2*f)), 2*(2*(2*f))]),
        seqShape_step (layerShape_convT_doubles 128 out_c n
          (2*(2*(2*f))) (2*(2*(2*f))) (by omega) (by omega))]
    rw [seqShape]
    have e : 2*(2*(2*(2*f))) = 16 * f := by ring
    rw [e]
  refine ⟨hview, hgen, ?_⟩
  have hdmods : discModules out_c =
      [Layer.conv ConvKind.conv2d out_c 128 4 1 2 false,
       Layer.batchNorm2d 128, Layer.leakyReLU (3/10),
       Layer.conv ConvKind.conv2d 128 256 4 1 2 false,
       Layer.batchNorm2d 256, Layer.leakyReLU (3/10),
       Layer.conv ConvKind.conv2d 256 512 4 1 2 false,
       Layer.batchNorm2d 512, Layer.leakyReLU (3/10),
       Layer.conv ConvKind.conv2d 512 1024 4 1 2 false,
       Layer.batchNorm2d 1024, Layer.leakyReLU (3/10)] := by
    simp [discModules, create_layer]
  have hseq : seqShape (discModules out_c) [n, out_c, 16 * f, 16 * f]
      = some [n, 1024, f, f] := by
    rw [hdmods]
    rw [show (16 * f) = 2 * (8 * f) from by ring]
    rw [seqShape_step (layerShape_conv_halves out_c 128 n (8*f) (8*f)
          (by omega) (by omega)),
        seqShape_step (layerShape_bn 128 n (8*f) (8*f)),
        seqShape_step (rfl :
          layerShape (Layer.leakyReLU (3/10)) [n, 128, 8*f, 8*f]
            = some [n, 128, 8*f, 8*f])]
    rw [show (8 * f) = 2 * (4 * f) from by ring]
    rw [seqShape_step (layerShape_conv_halves 128 256 n (4*f) (4*f)
          (by omega) (by omega)),
        seqShape_step (layerShape_bn 256 n (4*f) (4*f)),
        seqShape_step (rfl :
          layerShape (Layer.leakyReLU (3/10)) [n, 256, 4*f, 4*f]
            = some [n, 256, 4*f, 4*f])]
    rw [show (4 * f) = 2 * (2 * f) from by ring]
    rw [seqShape_step (layerShape_conv_halves 256 512 n (2*f) (2*f)
          (by omega) (by omega)),
        seqShape_step (layerShape_bn 512 n (2*f) (2*f)),
        seqShape_step (rfl :
          layerShape (Layer.leakyReLU (3/10)) [n, 512, 2*f, 2*f]
            = some [n, 512, 2*f, 2*f])]
    rw [seqShape_step (layerShape_conv_halves 512 1024 n f f hf hf),
        seqShape_step (layerShape_bn 1024 n f f),
        seqShape_step (rfl :
          layerShape (Layer.leakyReLU (3/10)) [n, 1024, f, f]
            = some [n, 1024, f, f])]
    rw [seqShape]
  have hnum : numel [n, 1024, f, f] = n * (1024 * f * f) := by
    simp [numel, List.foldl]; ring
  have hflat : viewFlatten [n, 1024, f, f] n = some [n, 1024 * f * f] := by
    rw [viewFlatten, if_pos ⟨by omega, by rw [hnum]; exact ⟨1024 * f * f, rfl⟩⟩,
        hnum, Nat.mul_div_cancel_left _ (by omega)]
  rw [Discriminator.forward]
  simp only [List.head?, Option.bind_eq_bind', Option.some_bind', hseq, hflat]
  simp only [linShape]
  rw [if_pos (by ring)]

/-- C8 witness: z_dim = 128, featuremap_size = 4, out_channels = 3,
batch 8: the generator emits (8, 3, 64, 64) and the (3, 64, 64)
discriminator accepts it. -/
theorem generator_output_matches_discriminator_witness :
    viewBatch4 [8, 128] 8 = some [8, 128, 1, 1]
    ∧ Generator.forward 128 4 3 [8, 128] = some [8, 3, 64, 64]
    ∧ Discriminator.forward (3, 64, 64) [8, 3, 64, 64] = some [8, 1] :=
  generator_output_matches_discriminator 128 4 3 8 (by decide) (by decide)

/-- A degenerate uniform fill over [c, c] is the constant list c,
independent of the random stream. -/
theorem uniformFill_const (len : Nat) (c : ℚ) (r : Nat → ℚ) :
    uniformFill len c c r = List.replicate len c := by
  simp [uniformFill]

/-- C6: with label_noise = 0 and data_label = 0, discriminator_loss_fn is
deterministic — two arbitrary random streams give the same result — and
equals the unweighted sum of the sigmoid-cross-entropy of the real scores
against a constant all-zeros target and of the generated scores against a
constant all-ones target. -/
theorem discriminator_loss_fn_zero_noise (bce : List ℚ → List ℚ → ℚ)
    (y_data y_generated : List ℚ) (r1 r2 r1' r2' : Nat → ℚ) :
    discriminator_loss_fn bce y_data y_generated 0 0 r1 r2
        = discriminator_loss_fn bce y_data y_generated 0 0 r1' r2'
    ∧ discriminator_loss_fn bce y_data y_generated 0 0 r1 r2
        = Except.ok (bce y_data (List.replicate y_data.length 0)
            + bce y_generated (List.replicate y_generated.length 1)) := by
  have key : ∀ s1 s2 : Nat → ℚ,
      discriminator_loss_fn bce y_data y_generated 0 0 s1 s2
        = Except.ok (bce y_data (List.replicate y_data.length 0)
            + bce y_generated (List.replicate y_generated.length 1)) := by
    intro s1 s2
    rw [discriminator_loss_fn, if_pos (Or.inr rfl)]
    norm_num [uniformFill_const]
  exact ⟨(key r1 r2).trans (key r1' r2').symm, key r1 r2⟩

/-- C7: both loss functions raise an assertion failure exactly when
data_label is neither 0 nor 1, and both complete normally when data_label
is 0 or 1. -/
theorem loss_fns_assert_data_label (bce : List ℚ → List ℚ → ℚ)
    (y_data y_generated y : List ℚ) (label_noise : ℚ) (r1 r2 : Nat → ℚ)
    (data_label : ℚ) :
    (discriminator_loss_fn bce y_data y_generated data_label label_noise r1 r2
        = Except.error PyError.assertionError
      ↔ ¬(data_label = 1 ∨ data_label = 0))
    ∧ (generator_loss_fn bce y data_label = Except.error PyError.assertionError
      ↔ ¬(data_label = 1 ∨ data_label = 0))
    ∧ ((data_label = 1 ∨ data_label = 0) →
        (∃ q, discriminator_loss_fn bce y_data y_generated data_label
            label_noise r1 r2 = Except.ok q)
        ∧ (∃ q, generator_loss_fn bce y data_label = Except.ok q)) := by
  by_cases h : data_label = 1 ∨ data_label = 0 <;>
    simp [discriminator_loss_fn, generator_loss_fn, h]

/-- C4: the discriminator sub-step (sampling, detached scoring, loss,
backward, discriminator optimizer step) leaves the generator's parameters
unchanged, as does clearing the gradients; the whole of train_batch's
effect after the discriminator sub-step is the generator sub-step, so the
generator's parameters change only there. -/
theorem train_batch_generator_frame {P D B S R : Type} (env : GanEnv P D B S R)
    (x_data : B) (s : GanState P D R) :
    (dsc_sub_step env x_data s).1.genParams = s.genParams
    ∧ (zero_grad_phase env s).genParams = s.genParams
    ∧ (train_batch env x_data s).1
        = (gen_sub_step env x_data
            (dsc_sub_step env x_data (zero_grad_phase env s)).1).1 :=
  ⟨rfl, rfl, rfl⟩

/-- C5: train_batch is exactly the alternating update the spec lists, in
that order, returning the pair (discriminator loss, generator loss) as
plain numbers via Tensor.item. -/
theorem train_batch_refines_spec {P D B S R : Type} (env : GanEnv P D B S R)
    (real_batch : B) (s : GanState P D R) :
    train_batch env real_batch s = train_batch_spec env real_batch s := rfl
